import Mathlib

/-!
Verification development for the `user3301/user3301` repository
(`scripts/source-and-update-photo.py` and `scripts/update_flickr_photo.py`).

The scripts are shallowly embedded over `List Char` / `String`:

* Python `str.replace(old, new)` is embedded as `pyReplace` (all
  non-overlapping occurrences, scanned left to right);
* Python `str.strip()` is embedded as `pyStrip` (whitespace removed from
  both ends; the whitespace class is restricted to the six ASCII
  whitespace characters, which is the fragment exercised here);
* the `re.sub(r"^.+?\s+posted a photo:\s*", "", d)` call is embedded as
  `removeBoilerplate` (the pattern is anchored and deterministic: the
  lazy `.+?` takes the shortest viable prefix of non-newline characters,
  `\s+` must run to the maximal whitespace block because the literal
  starts with a non-whitespace character, `\s*` is maximal);
* the stdlib `HTMLParser`-based stripper is embedded as `htmlData`
  (tags `<...>` are dropped, a `<` not opening a tag is kept as data,
  character references from a core table `&amp; &lt; &gt; &quot;` are
  decoded; numeric references, semicolon-less legacy references and
  quoted `>` inside tags are outside the model — no claim below
  depends on them);
* the transport layer (`requests.get` + `raise_for_status` + `.json()`)
  is embedded as a `FetchOutcome` value describing the observable
  outcome of the GET;
* JSON values are embedded as `JValue`; object field lookup assumes
  distinct keys (as produced by the feed);
* Python exceptions that escape a function are embedded with `Except
  PyErr`; exceptions swallowed by a `try/except` are part of the
  returned value.
-/

/-- The six ASCII whitespace characters (the fragment of Python's
whitespace class used by `\s`, `\s*`, `\s+` and `str.strip()` that is
relevant here). -/
def isWS (c : Char) : Bool :=
  c = ' ' || c = '\t' || c = '\n' || c = '\r' || c = '\x0b' || c = '\x0c'

/-- Python `str.strip()`: drop whitespace from both ends. -/
def pyStrip (l : List Char) : List Char :=
  List.rdropWhile isWS (List.dropWhile isWS l)

/-- Fuelled core of Python `str.replace(old, new)`: replace the leftmost
occurrence of `pat`, continue after the replacement, scanning left to
right.  The fuel argument only makes the recursion structural; it is
instantiated with the length of the list, which is always sufficient. -/
def pyReplaceF (pat rep : List Char) : Nat → List Char → List Char
  | _, [] => []
  | 0, _ :: _ => []
  | n + 1, c :: cs =>
    if pat.isPrefixOf (c :: cs) then
      rep ++ pyReplaceF pat rep n (cs.drop (pat.length - 1))
    else
      c :: pyReplaceF pat rep n cs

/-- Python `s.replace(pat, rep)` for a non-empty pattern. -/
def pyReplace (pat rep s : List Char) : List Char :=
  pyReplaceF pat rep s.length s

/-- Occurrence test: `containsSub pat l = true` iff `pat` occurs as a
contiguous substring of `l` (Python's `pat in l`). -/
def containsSub (pat : List Char) : List Char → Bool
  | [] => pat.isEmpty
  | c :: cs => pat.isPrefixOf (c :: cs) || containsSub pat cs

/-- The small-size marker replaced in the feed path. -/
def mMarker : List Char := '_' :: 'm' :: '.' :: 'j' :: 'p' :: 'g' :: []

/-- The large-size marker substituted for the small-size one. -/
def bMarker : List Char := '_' :: 'b' :: '.' :: 'j' :: 'p' :: 'g' :: []

theorem containsSub_correct (pat l : List Char) :
    containsSub pat l = true ↔ pat <:+: l := by
  induction l with
  | nil => cases pat <;> simp [containsSub, List.infix_nil]
  | cons c cs ih =>
    simp only [containsSub, Bool.or_eq_true, ih, List.infix_cons_iff,
      List.isPrefixOf_iff_prefix]

theorem pyReplaceF_of_not_contains (pat rep : List Char) :
    ∀ n l, l.length ≤ n → containsSub pat l = false →
      pyReplaceF pat rep n l = l := by
  intro n
  induction n with
  | zero =>
    intro l hl _
    have hnil : l = [] := List.length_eq_zero.mp (Nat.le_zero.mp hl)
    subst hnil; rfl
  | succ n ih =>
    intro l hl hc
    match l with
    | [] => rfl
    | c :: cs =>
      simp only [containsSub, Bool.or_eq_false_iff] at hc
      rw [pyReplaceF, if_neg (by simp [hc.1])]
      have hlen : cs.length ≤ n := Nat.le_of_succ_le_succ hl
      rw [ih cs hlen hc.2]

theorem pyReplace_of_not_contains (pat rep l : List Char)
    (h : containsSub pat l = false) : pyReplace pat rep l = l :=
  pyReplaceF_of_not_contains pat rep l.length l (Nat.le_refl _) h

theorem pyReplaceF_self (pat : List Char) (hpat : pat ≠ []) :
    ∀ n l, l.length ≤ n → pyReplaceF pat pat n l = l := by
  obtain ⟨p, ps, rfl⟩ := List.exists_cons_of_ne_nil hpat
  intro n
  induction n with
  | zero =>
    intro l hl
    have hnil : l = [] := List.length_eq_zero.mp (Nat.le_zero.mp hl)
    subst hnil; rfl
  | succ n ih =>
    intro l hl
    match l with
    | [] => rfl
    | c :: cs =>
      rw [pyReplaceF]
      by_cases h : (p :: ps).isPrefixOf (c :: cs)
      · rw [if_pos h]
        obtain ⟨t, ht⟩ := List.isPrefixOf_iff_prefix.mp h
        rw [List.cons_append] at ht
        injection ht with hpc hcs
        have hdrop : cs.drop ((p :: ps).length - 1) = t := by
          rw [← hcs]
          simp
        rw [hdrop]
        have htlen : t.length ≤ n := by
          have h1 : cs.length ≤ n := Nat.le_of_succ_le_succ hl
          have h2 : ps.length + t.length = cs.length := by
            have h3 := congrArg List.length hcs
            simpa [List.length_append] using h3
          omega
        rw [ih t htlen]
        simp [hpc, hcs]
      · rw [if_neg h]
        have hlen : cs.length ≤ n := Nat.le_of_succ_le_succ hl
        rw [ih cs hlen]

/-- Replacing a non-empty pattern by itself is the identity (`_b.jpg` →
`_b.jpg` in `fetch_specific_flickr_photo` never changes the URL). -/
theorem pyReplace_self (pat l : List Char) (hpat : pat ≠ []) :
    pyReplace pat pat l = l :=
  pyReplaceF_self pat hpat l.length l (Nat.le_refl _)

theorem pyReplaceF_cons (pat rep : List Char) (n : Nat) (c : Char) (cs : List Char) :
    pyReplaceF pat rep (n + 1) (c :: cs) =
      if pat.isPrefixOf (c :: cs) then
        rep ++ pyReplaceF pat rep n (cs.drop (pat.length - 1))
      else
        c :: pyReplaceF pat rep n cs := rfl

/-- The proper suffixes of the small-size marker, indexed by how many
leading characters are dropped. -/
def mSuffix : Nat → List Char
  | 0 => mMarker
  | 1 => 'm' :: '.' :: 'j' :: 'p' :: 'g' :: []
  | 2 => '.' :: 'j' :: 'p' :: 'g' :: []
  | 3 => 'j' :: 'p' :: 'g' :: []
  | 4 => 'p' :: 'g' :: []
  | 5 => 'g' :: []
  | _ + 6 => []

theorem pyReplaceF_marker_free :
    ∀ n l, l.length ≤ n →
      containsSub mMarker (pyReplaceF mMarker bMarker n l) = false ∧
      (∀ k, 1 ≤ k → k ≤ 5 → (mSuffix k).isPrefixOf l = false →
        (mSuffix k).isPrefixOf (pyReplaceF mMarker bMarker n l) = false) := by
  intro n
  induction n with
  | zero =>
    intro l hl
    have hnil : l = [] := List.length_eq_zero.mp (Nat.le_zero.mp hl)
    subst hnil
    refine ⟨by decide, ?_⟩
    intro k hk1 hk5 _
    interval_cases k <;> decide
  | succ n ih =>
    intro l hl
    match l with
    | [] =>
      have hE : pyReplaceF mMarker bMarker (n + 1) [] = [] := rfl
      rw [hE]
      refine ⟨by decide, ?_⟩
      intro k hk1 hk5 _
      interval_cases k <;> decide
    | c :: cs =>
      have hcslen : cs.length ≤ n := Nat.le_of_succ_le_succ hl
      have ihc := ih cs hcslen
      cases h : mMarker.isPrefixOf (c :: cs) with
      | true =>
        rw [pyReplaceF_cons, if_pos (by simp [h])]
        have hdlen : (cs.drop (mMarker.length - 1)).length ≤ n := by
          rw [List.length_drop]; omega
        have ihd := ih (cs.drop (mMarker.length - 1)) hdlen
        have hmain := ihd.1
        constructor
        · simp only [mMarker, bMarker, List.length_cons, List.length_nil] at hmain ⊢
          simp [containsSub, List.isPrefixOf, hmain]
        · intro k hk1 hk5 _
          interval_cases k <;> simp [mSuffix, bMarker, List.isPrefixOf]
      | false =>
        rw [pyReplaceF_cons, if_neg (by simp [h])]
        constructor
        · have hR := ihc.1
          simp only [containsSub, Bool.or_eq_false_iff]
          refine ⟨?_, hR⟩
          cases hmc : ('_' == c) with
          | false => simp [mMarker, List.isPrefixOf, hmc]
          | true =>
            have hpre1 : (mSuffix 1).isPrefixOf cs = false := by
              simpa [mMarker, mSuffix, List.isPrefixOf, hmc] using h
            have hstep := ihc.2 1 (by norm_num) (by norm_num) hpre1
            simpa [mMarker, mSuffix, List.isPrefixOf, hmc] using hstep
        · intro k hk1 hk5 hpre
          interval_cases k
          · cases hmc : ('m' == c) with
            | false => simp [mSuffix, List.isPrefixOf, hmc]
            | true =>
              have hpre' : (mSuffix 2).isPrefixOf cs = false := by
                simpa [mSuffix, List.isPrefixOf, hmc] using hpre
              have hstep := ihc.2 2 (by norm_num) (by norm_num) hpre'
              simpa [mSuffix, List.isPrefixOf, hmc] using hstep
          · cases hmc : ('.' == c) with
            | false => simp [mSuffix, List.isPrefixOf, hmc]
            | true =>
              have hpre' : (mSuffix 3).isPrefixOf cs = false := by
                simpa [mSuffix, List.isPrefixOf, hmc] using hpre
              have hstep := ihc.2 3 (by norm_num) (by norm_num) hpre'
              simpa [mSuffix, List.isPrefixOf, hmc] using hstep
          · cases hmc : ('j' == c) with
            | false => simp [mSuffix, List.isPrefixOf, hmc]
            | true =>
              have hpre' : (mSuffix 4).isPrefixOf cs = false := by
                simpa [mSuffix, List.isPrefixOf, hmc] using hpre
              have hstep := ihc.2 4 (by norm_num) (by norm_num) hpre'
              simpa [mSuffix, List.isPrefixOf, hmc] using hstep
          · cases hmc : ('p' == c) with
            | false => simp [mSuffix, List.isPrefixOf, hmc]
            | true =>
              have hpre' : (mSuffix 5).isPrefixOf cs = false := by
                simpa [mSuffix, List.isPrefixOf, hmc] using hpre
              have hstep := ihc.2 5 (by norm_num) (by norm_num) hpre'
              simpa [mSuffix, List.isPrefixOf, hmc] using hstep
          · simp only [mSuffix, List.isPrefixOf, Bool.and_true] at hpre ⊢
            exact hpre

/-- The upsizing substitution leaves no occurrence of the small-size
marker in its output. -/
theorem pyReplace_marker_free (l : List Char) :
    containsSub mMarker (pyReplace mMarker bMarker l) = false :=
  (pyReplaceF_marker_free l.length l (Nat.le_refl _)).1

theorem dropWhile_head_not (p : Char → Bool) :
    ∀ l c t, List.dropWhile p l = c :: t → p c = false := by
  intro l
  induction l with
  | nil => intro c t h; simp [List.dropWhile] at h
  | cons a as ih =>
    intro c t h
    rw [List.dropWhile_cons] at h
    by_cases ha : p a = true
    · rw [if_pos ha] at h; exact ih c t h
    · rw [if_neg ha] at h
      injection h with h1 _
      subst h1
      simpa using ha

theorem pyStrip_idem (l : List Char) : pyStrip (pyStrip l) = pyStrip l := by
  unfold pyStrip
  have hdy : List.dropWhile isWS (List.rdropWhile isWS (List.dropWhile isWS l)) =
      List.rdropWhile isWS (List.dropWhile isWS l) := by
    cases hy : List.rdropWhile isWS (List.dropWhile isWS l) with
    | nil => simp
    | cons c t =>
      have hyA := List.rdropWhile_prefix isWS (List.dropWhile isWS l)
      rw [hy] at hyA
      obtain ⟨t2, ht2⟩ := hyA
      have hc : isWS c = false := by
        apply dropWhile_head_not isWS l c (t ++ t2)
        rw [← ht2, List.cons_append]
      rw [List.dropWhile_cons, if_neg (by simp [hc])]
  rw [hdy, List.rdropWhile_idempotent]

theorem pyStrip_subset (l : List Char) : pyStrip l ⊆ l := by
  intro a ha
  have h1 : pyStrip l ⊆ List.dropWhile isWS l :=
    ( List.rdropWhile_prefix isWS (List.dropWhile isWS l)).sublist.subset
  have h2 : List.dropWhile isWS l ⊆ l := (List.dropWhile_suffix isWS).sublist.subset
  exact h2 (h1 ha)

/-- Character-reference decoding after a `&`: the core named references,
semicolon included (`HTMLStripper` runs with `convert_charrefs = True`).
Returns the decoded character and the number of source characters
consumed after the ampersand. -/
def findRef (l : List Char) : Option (Char × Nat) :=
  if ('a' :: 'm' :: 'p' :: ';' :: []).isPrefixOf l then some ('&', 4)
  else if ('l' :: 't' :: ';' :: []).isPrefixOf l then some ('<', 3)
  else if ('g' :: 't' :: ';' :: []).isPrefixOf l then some ('>', 3)
  else if ('q' :: 'u' :: 'o' :: 't' :: ';' :: []).isPrefixOf l then some ('"', 5)
  else none

/-- Skip to just past the next `>` (end of a tag).  A tag that never
terminates stays in the parser's buffer, so nothing after it reaches
the data callback. -/
def skipTag (l : List Char) : List Char :=
  (l.dropWhile (fun c => !(c = '>'))).drop 1

/-- A character that can start a markup construct after `<`; any other
character makes the parser emit the `<` itself as data. -/
def tagOpener (c : Char) : Bool := c.isAlpha || c = '/' || c = '!' || c = '?'

/-- Fuelled text extraction of `HTMLStripper`: tags are dropped, data is
kept, core character references are decoded.  The fuel is instantiated
with the input length, which is always sufficient. -/
def htmlDataF : Nat → List Char → List Char
  | _, [] => []
  | 0, _ :: _ => []
  | n + 1, c :: cs =>
    if c = '<' then
      match cs with
      | [] => []
      | d :: _ => if tagOpener d then htmlDataF n (skipTag cs) else c :: htmlDataF n cs
    else if c = '&' then
      match findRef cs with
      | some (d, k) => d :: htmlDataF n (cs.drop k)
      | none => c :: htmlDataF n cs
    else c :: htmlDataF n cs

/-- Concatenated `handle_data` output of `HTMLStripper.feed`. -/
def htmlData (l : List Char) : List Char := htmlDataF l.length l

/-- `strip_html_tags` from `source-and-update-photo.py`: empty (falsy)
input short-circuits to the empty string; otherwise the tag-stripped
data is whitespace-stripped at both ends. -/
def strip_html_tags (l : List Char) : List Char :=
  if l.isEmpty then [] else pyStrip (htmlData l)

theorem htmlDataF_step_plain (n : Nat) (c : Char) (cs : List Char)
    (h1 : ¬ c = '<') (h2 : ¬ c = '&') :
    htmlDataF (n + 1) (c :: cs) = c :: htmlDataF n cs := by
  simp only [htmlDataF]
  rw [if_neg h1, if_neg h2]

theorem htmlDataF_clean :
    ∀ n l, l.length ≤ n → '<' ∉ l → '&' ∉ l → htmlDataF n l = l := by
  intro n
  induction n with
  | zero =>
    intro l hl _ _
    have hnil : l = [] := List.length_eq_zero.mp (Nat.le_zero.mp hl)
    subst hnil; rfl
  | succ n ih =>
    intro l hl h1 h2
    match l with
    | [] => rfl
    | c :: cs =>
      simp only [List.mem_cons, not_or] at h1 h2
      rw [htmlDataF_step_plain n c cs (fun h => h1.1 h.symm) (fun h => h2.1 h.symm)]
      rw [ih cs (Nat.le_of_succ_le_succ hl) h1.2 h2.2]

theorem htmlData_clean (l : List Char) (h1 : '<' ∉ l) (h2 : '&' ∉ l) :
    htmlData l = l :=
  htmlDataF_clean l.length l (Nat.le_refl _) h1 h2

/-- The literal part of the boilerplate pattern. -/
def litPosted : List Char :=
  'p' :: 'o' :: 's' :: 't' :: 'e' :: 'd' :: ' ' :: 'a' :: ' ' ::
  'p' :: 'h' :: 'o' :: 't' :: 'o' :: ':' :: []

/-- Matcher for the tail `\s+ "posted a photo:" \s*` of the boilerplate
regex at the current position.  Because the literal begins with a
non-whitespace character, Python's backtracking admits exactly one
candidate: `\s+` must consume the whole maximal whitespace block, and
`\s*` is maximal.  Returns the number of characters the tail consumes,
or `none` when the tail cannot match here. -/
def matchTailAt (l : List Char) : Option Nat :=
  let k := (l.takeWhile isWS).length
  if k = 0 then none
  else if litPosted.isPrefixOf (l.drop k) then
    some (k + litPosted.length + (((l.drop k).drop litPosted.length).takeWhile isWS).length)
  else none

/-- Search loop for the anchored lazy `.+?`: consume one non-newline
character at a time (at least one), trying the tail matcher after each;
the first success is the match Python chooses.  Returns what remains of
the string after the whole match, or `none` when the anchored pattern
does not match. -/
def goMatch : List Char → Option (List Char)
  | [] => none
  | c :: cs =>
    if c = '\n' then none
    else
      match matchTailAt cs with
      | some t => some (cs.drop t)
      | none => goMatch cs

/-- `re.sub(r"^.+?\s+posted a photo:\s*", "", description)`: since the
pattern is anchored at the start of the string (no MULTILINE flag), at
most one substitution happens. -/
def removeBoilerplate (l : List Char) : List Char := (goMatch l).getD l

theorem goMatch_suffix : ∀ l r, goMatch l = some r → r <:+ l := by
  intro l
  induction l with
  | nil => intro r h; simp [goMatch] at h
  | cons c cs ih =>
    intro r h
    simp only [goMatch] at h
    by_cases hc : c = '\n'
    · rw [if_pos hc] at h; cases h
    · rw [if_neg hc] at h
      cases hm : matchTailAt cs with
      | some t =>
        rw [hm] at h
        injection h with h1
        subst h1
        exact (List.drop_suffix t cs).trans (List.suffix_cons c cs)
      | none =>
        rw [hm] at h
        exact (ih r h).trans (List.suffix_cons c cs)

theorem goMatch_length : ∀ l r, goMatch l = some r → r.length < l.length := by
  intro l
  induction l with
  | nil => intro r h; simp [goMatch] at h
  | cons c cs ih =>
    intro r h
    simp only [goMatch] at h
    by_cases hc : c = '\n'
    · rw [if_pos hc] at h; cases h
    · rw [if_neg hc] at h
      cases hm : matchTailAt cs with
      | some t =>
        rw [hm] at h
        injection h with h1
        subst h1
        simp [List.length_drop]
        omega
      | none =>
        rw [hm] at h
        exact Nat.lt_trans (ih r h) (Nat.lt_succ_self _)

/-- The three-character ellipsis marker appended on truncation. -/
def ellipsis : List Char := '.' :: '.' :: '.' :: []

/-- Lines 102-104 of `source-and-update-photo.py`: truncate the cleaned
description to its first 497 characters plus `"..."` when it exceeds
500 characters. -/
def truncate_description (l : List Char) : List Char :=
  if 500 < l.length then l.take 497 ++ ellipsis else l

/-- The full description pipeline of `get_random_photo` on a string
field: HTML-strip, remove the boilerplate prefix, truncate. -/
def normalize_description (d : List Char) : List Char :=
  truncate_description (removeBoilerplate (strip_html_tags d))

/-- JSON values as decoded by `response.json()`.  Numbers are modelled
as integers (no claim depends on floats); object field lookup below
assumes the distinct keys the feed produces. -/
inductive JValue where
  | null
  | bool (b : Bool)
  | num (n : Int)
  | str (s : String)
  | arr (xs : List JValue)
  | obj (fields : List (String × JValue))

/-- Python exceptions that can escape the modelled fragments. -/
inductive PyErr where
  | attributeError
  | typeError
  | osError
deriving DecidableEq

/-- Association-list lookup for a JSON object. -/
def jLookup (fields : List (String × JValue)) (k : String) : Option JValue :=
  (fields.find? (fun p => p.1 == k)).map Prod.snd

/-- Python `dict.get(k, d)` on a JSON object's fields. -/
def jLookupD (fields : List (String × JValue)) (k : String) (d : JValue) : JValue :=
  (jLookup fields k).getD d

/-- Python truthiness of a JSON value. -/
def jTruthy : JValue → Bool
  | .null => false
  | .bool b => b
  | .num n => n != 0
  | .str s => !s.isEmpty
  | .arr xs => !xs.isEmpty
  | .obj fs => !fs.isEmpty

/-- Python `v.get(k, d)`: succeeds on a dict, raises `AttributeError`
on any other value. -/
def pyDictGet (v : JValue) (k : String) (d : JValue) : Except PyErr JValue :=
  match v with
  | .obj fs => .ok (jLookupD fs k d)
  | _ => .error .attributeError

/-- Observable outcome of one `requests.get` call: either the transport
fails (connection error / timeout), or a final response arrives with a
status code and a body.  `none` for the body means it failed to decode
as JSON. -/
inductive FetchOutcome where
  | transportError
  | response (status : Nat) (body : Option JValue)

/-- `fetch_flickr_photos` (both scripts): the whole body is inside one
`try/except Exception`, so a transport failure, an error status raised
by `raise_for_status` (4xx/5xx), a JSON decode failure, or `.get` on a
non-dict body all produce the empty list; otherwise the `items` field
(with default `[]`) is returned as-is. -/
def fetch_flickr_photos : FetchOutcome → JValue
  | .transportError => .arr []
  | .response status body =>
    if 400 ≤ status ∧ status < 600 then .arr []
    else
      match body with
      | none => .arr []
      | some (.obj fs) => jLookupD fs "items" (.arr [])
      | some _ => .arr []

/-- `strip_html_tags` applied to an arbitrary field value, as in
`get_random_photo`: falsy values short-circuit to `""`, truthy
non-strings make `HTMLParser.feed` raise `TypeError`. -/
def strip_html_tags_j : JValue → Except PyErr (List Char)
  | .str s => .ok (strip_html_tags s.data)
  | v => if jTruthy v then .error .typeError else .ok []

/-- The dict returned by `get_random_photo`.  `url`, `title`, `link`
and `published` are raw `.get` results (arbitrary JSON values); the
description has passed through the string pipeline. -/
structure RandomPhoto where
  url : JValue
  title : JValue
  link : JValue
  published : JValue
  description : List Char

/-- `get_random_photo` (lines 81-112 of `source-and-update-photo.py`).
`random.choice` is modelled by the explicit index `choice` (an
independent draw supplied by the caller); the function has no
`try/except`, so exceptions escape as `Except.error`. -/
def get_random_photo (photos : List JValue) (choice : Nat) :
    Except PyErr (Option RandomPhoto) :=
  if photos.isEmpty then .ok none
  else do
    let photo := photos.getD choice JValue.null
    let media ← pyDictGet photo "media" (.obj [])
    let m ← pyDictGet media "m" (.str "")
    let image_url ←
      if jTruthy m then
        match m with
        | .str s => Except.ok (JValue.str (String.mk (pyReplace mMarker bMarker s.data)))
        | _ => Except.error PyErr.attributeError
      else Except.ok m
    let dh ← pyDictGet photo "description" (.str "")
    let stripped ← strip_html_tags_j dh
    let description := truncate_description (removeBoilerplate stripped)
    let title ← pyDictGet photo "title" (.str "Flickr Photo")
    let link ← pyDictGet photo "link" (.str "")
    let published ← pyDictGet photo "published" (.str "")
    Except.ok (some { url := image_url, title := title, link := link,
                      published := published, description := description })

/-- The dict returned by `fetch_specific_flickr_photo`. -/
structure OEmbedPhoto where
  url : JValue
  title : JValue
  link : String
  description : String
  author_name : JValue

/-- `fetch_specific_flickr_photo` (lines 53-78).  Everything happens
inside one `try/except Exception`, so any error (transport, status,
JSON decode, `.get` on a non-dict, `.replace` on a truthy non-string)
yields `none`.  The upsizing step substitutes `_b.jpg` for itself. -/
def fetch_specific_flickr_photo (userId photoId : String) (fo : FetchOutcome) :
    Option OEmbedPhoto :=
  let photo_url := "https://www.flickr.com/photos/" ++ userId ++ "/" ++ photoId
  match fo with
  | .transportError => none
  | .response status body =>
    if 400 ≤ status ∧ status < 600 then none
    else
      match body with
      | none => none
      | some (.obj fields) =>
        let u := jLookupD fields "url" (.str "")
        match (if jTruthy u then
                 match u with
                 | .str s => some (JValue.str (String.mk (pyReplace bMarker bMarker s.data)))
                 | _ => none
               else some u) with
        | none => none
        | some u2 =>
          some { url := u2,
                 title := jLookupD fields "title" (.str "Flickr Photo"),
                 link := photo_url,
                 description := "",
                 author_name := jLookupD fields "author_name" (.str "") }
      | some _ => none

/-- Outcome of the pre-write `open(readme_path, "r")` check in
`update_readme`: success with the prior content, `FileNotFoundError`
(the only exception the code catches), or any other `OSError` such as
`PermissionError` for an existing but unreadable file. -/
inductive ReadOutcome where
  | ok (content : String)
  | fileNotFound
  | osError

/-- The fields of `photo_info` used by the README template. -/
structure PhotoInfo where
  url : JValue
  title : JValue
  link : JValue
  description : String

/-- Python `str()` as invoked by the f-string template on a field
value.  Strings render as themselves; non-string values get a
simplified rendering (no claim below depends on it). -/
def pyStr : JValue → String
  | .null => "None"
  | .bool b => if b then "True" else "False"
  | .num n => toString n
  | .str s => s
  | .arr _ => "[list]"
  | .obj _ => "[dict]"

/-- The `photo_section` f-string of `update_readme` in
`source-and-update-photo.py` (lines 126-149), a function of
`photo_info` alone. -/
def render_readme (p : PhotoInfo) : String :=
  let description_section :=
    if p.description ≠ "" then "\n> " ++ p.description ++ "\n" else ""
  "# I am user3301\n\n## 📸 ᴬ ᵈᵃⁱˡʸ ˢʰᵘᶠᶠˡᵉ ᶠʳᵒᵐ ᵐʸ ˡᵉⁿˢ ᵗᵒ ʸᵒᵘʳ ˢᶜʳᵉᵉⁿ\n\n![Powered by GitHub Actions](https://img.shields.io/badge/Powered%20by-GitHub%20Actions-blue?logo=githubactions&logoColor=white)\n\n[![" ++
    pyStr p.title ++ "](" ++ pyStr p.url ++ ")](" ++ pyStr p.link ++ ")\n\n**[" ++
    pyStr p.title ++ "](" ++ pyStr p.link ++ ")**\n" ++ description_section ++
    "\n\n---\n\n<!-- <img\n  src=\"https://github.com/user3301/user3301/blob/master/images/stat.svg\"\n  alt=\"My Activity Stats\"\n/>\n -->\n"

/-- Observable result of `update_readme`: the Python return value (or
the exception that escaped) and the content written to the target
file, if any. -/
structure UpdateResult where
  retVal : Except PyErr Bool
  written : Option String

/-- `update_readme` (lines 115-159): the file is opened for reading
first; only `FileNotFoundError` is caught (returning `False` with no
write); any other `OSError` propagates before the write; on a readable
file the read content is discarded and the rendered template is
written unconditionally. -/
def update_readme (photo_info : PhotoInfo) (readme : ReadOutcome) : UpdateResult :=
  match readme with
  | .ok _content => { retVal := .ok true, written := some (render_readme photo_info) }
  | .fileNotFound => { retVal := .ok false, written := none }
  | .osError => { retVal := .error PyErr.osError, written := none }

/-- Observable effects of one `main()` run. -/
structure MainLog where
  networkCalled : Bool
  written : Option String
  configError : Bool

/-- `main` (lines 162-195; `main` itself is a reserved name in Lean, hence `main_entry`).  The environment is modelled by the two
optional variables; `os.environ.get` yields `none` when unset, and the
`if not user_id` / `if image_id` tests treat `none` and `""` alike.
The transport outcomes of the two possible GET calls and the README
read outcome are inputs; `random.choice` is the explicit index
`choice`.  A truthy non-list `items` value (on which `random.choice`
would raise) is modelled as a `TypeError`. -/
def main_entry (userId imageId : Option String) (feed oembed : FetchOutcome)
    (choice : Nat) (readme : ReadOutcome) : Except PyErr MainLog :=
  let user_id := userId.getD ""
  if user_id = "" then
    Except.ok { networkCalled := false, written := none, configError := true }
  else
    let image_id := imageId.getD ""
    if image_id ≠ "" then
      match fetch_specific_flickr_photo user_id image_id oembed with
      | some pi =>
        if jTruthy pi.url then
          let u := update_readme { url := pi.url, title := pi.title,
                                   link := JValue.str pi.link,
                                   description := pi.description } readme
          match u.retVal with
          | .ok _ => Except.ok { networkCalled := true, written := u.written,
                                 configError := false }
          | .error e => Except.error e
        else
          Except.ok { networkCalled := true, written := none, configError := false }
      | none =>
        Except.ok { networkCalled := true, written := none, configError := false }
    else
      let photos := fetch_flickr_photos feed
      if !(jTruthy photos) then
        Except.ok { networkCalled := true, written := none, configError := false }
      else
        match photos with
        | .arr xs =>
          match get_random_photo xs choice with
          | .error e => Except.error e
          | .ok none =>
            Except.ok { networkCalled := true, written := none, configError := false }
          | .ok (some r) =>
            if jTruthy r.url then
              let u := update_readme { url := r.url, title := r.title,
                                       link := r.link,
                                       description := String.mk r.description } readme
              match u.retVal with
              | .ok _ => Except.ok { networkCalled := true, written := u.written,
                                     configError := false }
              | .error e => Except.error e
            else
              Except.ok { networkCalled := true, written := none, configError := false }
        | _ => Except.error PyErr.typeError

theorem except_bind_ok {α β : Type} (a : α) (f : α → Except PyErr β) :
    (Except.ok a >>= f) = f a := rfl

theorem except_bind_error {α β : Type} (e : PyErr) (f : α → Except PyErr β) :
    ((Except.error e : Except PyErr α) >>= f) = Except.error e := rfl

/-- Claim C1: in `get_random_photo`, a description whose length after
HTML-stripping and prefix-removal exceeds 500 characters is truncated
to exactly 500 characters — its first 497 characters followed by the
three-character ellipsis marker — while a cleaned description of at
most 500 characters passes through the truncation step unchanged. -/
theorem description_truncation_C1 (d : List Char) :
    (500 < (removeBoilerplate (strip_html_tags d)).length →
      normalize_description d =
        (removeBoilerplate (strip_html_tags d)).take 497 ++ ellipsis ∧
      (normalize_description d).length = 500) ∧
    ((removeBoilerplate (strip_html_tags d)).length ≤ 500 →
      normalize_description d = removeBoilerplate (strip_html_tags d)) := by
  constructor
  · intro h
    constructor
    · unfold normalize_description truncate_description
      rw [if_pos h]
    · unfold normalize_description truncate_description
      rw [if_pos h]
      have h3 : (ellipsis).length = 3 := rfl
      rw [List.length_append, List.length_take, h3]
      omega
  · intro h
    unfold normalize_description truncate_description
    rw [if_neg (by omega)]

set_option maxRecDepth 8000 in
theorem description_truncation_C1_witness :
    500 < (removeBoilerplate (strip_html_tags (List.replicate 501 'a'))).length ∧
    (normalize_description (List.replicate 501 'a')).length = 500 :=
  ⟨by decide, ((description_truncation_C1 (List.replicate 501 'a')).1 (by decide)).2⟩

/-- Claim C2: the image-URL normalization in `get_random_photo` is the
pure substitution of the small-size marker `_m.jpg` by the large-size
marker `_b.jpg` (`pyReplace mMarker bMarker`, applied to `media.m`): a
URL that does not contain the marker is returned unchanged, and the
output of the substitution never contains the small-size marker — in
particular every URL that did contain it loses all occurrences. -/
theorem image_url_upsizing_C2 (url : List Char) :
    (containsSub mMarker url = false → pyReplace mMarker bMarker url = url) ∧
    containsSub mMarker (pyReplace mMarker bMarker url) = false :=
  ⟨fun h => pyReplace_of_not_contains _ _ _ h, pyReplace_marker_free url⟩

theorem image_url_upsizing_C2_witness :
    pyReplace mMarker bMarker "https://live.staticflickr.com/1/2_z.jpg".data =
      "https://live.staticflickr.com/1/2_z.jpg".data ∧
    containsSub mMarker (pyReplace mMarker bMarker
      "https://live.staticflickr.com/1/2_m.jpg".data) = false :=
  ⟨(image_url_upsizing_C2 "https://live.staticflickr.com/1/2_z.jpg".data).1 (by decide),
   (image_url_upsizing_C2 "https://live.staticflickr.com/1/2_m.jpg".data).2⟩

/-- Claim C3 counterexample: the boilerplate prefix-removal step is not
idempotent for every input; on this input the first application leaves
a string that itself starts with a boilerplate prefix, which a second
application removes again. -/
theorem removeBoilerplate_not_idem_C3 :
    removeBoilerplate (removeBoilerplate
        "A posted a photo: B posted a photo: hi".data) ≠
      removeBoilerplate "A posted a photo: B posted a photo: hi".data := by
  decide

/-- Claim C3 (amended): the prefix-removal step always returns a suffix
of its input; it leaves a description unchanged exactly when the
anchored boilerplate pattern does not match; when the pattern matches,
exactly the matched prefix is removed; and re-application is the
identity precisely on inputs whose output no longer matches the
pattern — so idempotence holds there, but not in general. -/
theorem removeBoilerplate_amended_C3 (l : List Char) :
    removeBoilerplate l <:+ l ∧
    (removeBoilerplate l = l ↔ goMatch l = none) ∧
    (∀ r, goMatch l = some r → removeBoilerplate l = r) ∧
    (goMatch (removeBoilerplate l) = none →
      removeBoilerplate (removeBoilerplate l) = removeBoilerplate l) := by
  refine ⟨?_, ⟨?_, ?_⟩, ?_, ?_⟩
  · cases hg : goMatch l with
    | none => simp [removeBoilerplate, hg]
    | some r =>
      simp only [removeBoilerplate, hg, Option.getD_some]
      exact goMatch_suffix l r hg
  · intro he
    cases hg : goMatch l with
    | none => rfl
    | some r =>
      have hlt := goMatch_length l r hg
      rw [removeBoilerplate, hg, Option.getD_some] at he
      rw [he] at hlt
      exact absurd hlt (Nat.lt_irrefl _)
  · intro hg
    simp [removeBoilerplate, hg]
  · intro r hg
    simp [removeBoilerplate, hg]
  · intro hg
    have hunf : removeBoilerplate (removeBoilerplate l) =
        (goMatch (removeBoilerplate l)).getD (removeBoilerplate l) := rfl
    rw [hunf, hg, Option.getD_none]

theorem removeBoilerplate_amended_C3_witness :
    removeBoilerplate (removeBoilerplate "Bob posted a photo: hi".data) =
      removeBoilerplate "Bob posted a photo: hi".data :=
  (removeBoilerplate_amended_C3 "Bob posted a photo: hi".data).2.2.2 (by decide)

/-- Claim C4 counterexample: `strip_html_tags` is not idempotent; the
parser decodes character references, so a doubly encoded ampersand is
decoded once per pass: `&amp;amp;` strips to `&amp;`, which strips to
`&`. -/
theorem strip_html_tags_not_idem_C4 :
    strip_html_tags (strip_html_tags "&amp;amp;".data) ≠
      strip_html_tags "&amp;amp;".data := by
  decide

/-- Claim C4 (amended): `strip_html_tags` is idempotent on every input
free of markup and character-reference starters, i.e. containing
neither `<` nor `&`; on such inputs one pass only trims surrounding
whitespace, and a second pass is the identity.  (It is not idempotent
in general: character references decoded by a pass can form new
references, as the counterexample shows.) -/
theorem strip_html_tags_amended_C4 (l : List Char)
    (h1 : '<' ∉ l) (h2 : '&' ∉ l) :
    strip_html_tags (strip_html_tags l) = strip_html_tags l := by
  by_cases hl : l.isEmpty
  · have hnil : l = [] := List.isEmpty_iff.mp hl
    subst hnil; rfl
  · have hstep : strip_html_tags l = pyStrip l := by
      rw [strip_html_tags, if_neg hl, htmlData_clean l h1 h2]
    rw [hstep]
    by_cases hy : (pyStrip l).isEmpty
    · have hnil : pyStrip l = [] := List.isEmpty_iff.mp hy
      rw [hnil]; rfl
    · have hy1 : '<' ∉ pyStrip l := fun hmem => h1 (pyStrip_subset l hmem)
      have hy2 : '&' ∉ pyStrip l := fun hmem => h2 (pyStrip_subset l hmem)
      rw [strip_html_tags, if_neg hy, htmlData_clean _ hy1 hy2, pyStrip_idem]

theorem strip_html_tags_amended_C4_witness :
    strip_html_tags (strip_html_tags "  plain text  ".data) =
      strip_html_tags "  plain text  ".data :=
  strip_html_tags_amended_C4 "  plain text  ".data (by decide) (by decide)

/-- Claim C6: in the single-photo path, the upsizing step is the
identity: whenever `fetch_specific_flickr_photo` returns a record, its
`url` field equals the `url` field of the oEmbed response body
(default `""`) unchanged, because the substitution replaces `_b.jpg`
with itself. -/
theorem oembed_upsizing_identity_C6 (userId photoId : String)
    (status : Nat) (fields : List (String × JValue)) (r : OEmbedPhoto)
    (h : fetch_specific_flickr_photo userId photoId
        (.response status (some (.obj fields))) = some r) :
    r.url = jLookupD fields "url" (.str "") := by
  rw [fetch_specific_flickr_photo] at h
  by_cases hs : 400 ≤ status ∧ status < 600
  · rw [if_pos hs] at h; cases h
  · rw [if_neg hs] at h
    cases hu : jLookupD fields "url" (.str "") with
    | str s =>
      rw [hu] at h
      by_cases hse : s.isEmpty
      · simp [jTruthy, hse] at h
        subst h
        rfl
      · simp [jTruthy, hse] at h
        subst h
        have hid : pyReplace bMarker bMarker s.data = s.data :=
          pyReplace_self bMarker s.data (by decide)
        show JValue.str (String.mk (pyReplace bMarker bMarker s.data)) = JValue.str s
        rw [hid]
    | null =>
      rw [hu] at h
      simp [jTruthy] at h
      subst h
      rfl
    | bool b =>
      rw [hu] at h
      cases b with
      | false =>
        simp [jTruthy] at h
        subst h
        rfl
      | true => simp [jTruthy] at h
    | num n =>
      rw [hu] at h
      by_cases hn : n = 0
      · simp [jTruthy, hn] at h
        subst h
        simp [hn]
      · simp [jTruthy, hn] at h
    | arr xs =>
      rw [hu] at h
      cases xs with
      | nil =>
        simp [jTruthy] at h
        subst h
        rfl
      | cons x xt => simp [jTruthy] at h
    | obj fs =>
      rw [hu] at h
      cases fs with
      | nil =>
        simp [jTruthy] at h
        subst h
        rfl
      | cons f ft => simp [jTruthy] at h

theorem oembed_upsizing_identity_C6_witness :
    JValue.str "https://live.staticflickr.com/1/2_b.jpg" =
      jLookupD [("url", JValue.str "https://live.staticflickr.com/1/2_b.jpg")]
        "url" (JValue.str "") :=
  oembed_upsizing_identity_C6 "u" "12345" 200
    [("url", JValue.str "https://live.staticflickr.com/1/2_b.jpg")] _ rfl

/-- Whether a JSON value is an object. -/
def jIsObj : JValue → Bool
  | .obj _ => true
  | _ => false

/-- Claim C5 counterexample: a final response status of 300 is not a
success status (non-2xx), yet `raise_for_status` raises only for
4xx/5xx, so with a JSON object body the `items` field is returned
rather than the empty sequence. -/
theorem fetch_flickr_photos_non2xx_C5 :
    fetch_flickr_photos (.response 300 (some (.obj
      [("items", JValue.arr [JValue.str "photo"])]))) ≠ JValue.arr [] := by
  show JValue.arr [JValue.str "photo"] ≠ JValue.arr []
  simp

/-- Claim C5 (amended): `fetch_flickr_photos` is a total function of
the transport outcome (no exception escapes the `try/except`); it
returns the empty sequence on transport failure or timeout and on
every status `raise_for_status` treats as an error (4xx/5xx); on any
other final status it returns the parsed body's `items` field (with
default `[]`) when the body is a JSON object, and the empty sequence
when the body is absent, fails to parse, or is not an object.  (For a
non-2xx status below 400 — e.g. an unredirected 300 — the code does
not return the empty sequence, contrary to the claim as stated.) -/
theorem fetch_flickr_photos_amended_C5 (status : Nat) (body : Option JValue)
    (fields : List (String × JValue)) :
    fetch_flickr_photos .transportError = JValue.arr [] ∧
    (400 ≤ status → status < 600 →
      fetch_flickr_photos (.response status body) = JValue.arr []) ∧
    (status < 400 →
      fetch_flickr_photos (.response status (some (.obj fields))) =
        jLookupD fields "items" (.arr [])) ∧
    (status < 400 →
      fetch_flickr_photos (.response status none) = JValue.arr []) ∧
    (∀ v, status < 400 → jIsObj v = false →
      fetch_flickr_photos (.response status (some v)) = JValue.arr []) := by
  refine ⟨rfl, ?_, ?_, ?_, ?_⟩
  · intro h4 h6
    simp only [fetch_flickr_photos]
    rw [if_pos ⟨h4, h6⟩]
  · intro h4
    simp only [fetch_flickr_photos]
    rw [if_neg (by omega)]
  · intro h4
    simp only [fetch_flickr_photos]
    rw [if_neg (by omega)]
  · intro v h4 hobj
    simp only [fetch_flickr_photos]
    rw [if_neg (by omega)]
    cases v <;> simp_all [jIsObj]

theorem fetch_flickr_photos_amended_C5_witness :
    fetch_flickr_photos (.response 404 none) = JValue.arr [] ∧
    fetch_flickr_photos (.response 200 (some (.obj [("items", JValue.arr [])]))) =
      jLookupD [("items", JValue.arr [])] "items" (.arr []) ∧
    fetch_flickr_photos (.response 200 (some (.str "nonsense"))) = JValue.arr [] :=
  ⟨(fetch_flickr_photos_amended_C5 404 none []).2.1 (by norm_num) (by norm_num),
   (fetch_flickr_photos_amended_C5 200 (some (.obj [("items", JValue.arr [])]))
      [("items", JValue.arr [])]).2.2.1 (by norm_num),
   (fetch_flickr_photos_amended_C5 200 none []).2.2.2.2
      (JValue.str "nonsense") (by norm_num) rfl⟩

/-- Claim C7 counterexample: when the target file exists but is
unreadable at the pre-write check (an `OSError` other than
`FileNotFoundError`, e.g. `PermissionError`), `update_readme` does not
return `False` — the exception propagates, because the code catches
only `FileNotFoundError`. -/
theorem update_readme_unreadable_C7 :
    (update_readme { url := JValue.str "u", title := JValue.str "t",
                     link := JValue.str "l", description := "" }
        ReadOutcome.osError).retVal ≠ Except.ok false := by
  simp [update_readme]

/-- Claim C7 (amended): when the target document is missing at the
pre-write check, `update_readme` returns `False` without raising and
performs no write; when the pre-write check fails for any other reason
(existing but unreadable file), no write occurs either, but the
exception propagates instead of `False` being returned — only
`FileNotFoundError` is caught. -/
theorem update_readme_amended_C7 (p : PhotoInfo) :
    (update_readme p ReadOutcome.fileNotFound).retVal = Except.ok false ∧
    (update_readme p ReadOutcome.fileNotFound).written = none ∧
    (update_readme p ReadOutcome.osError).written = none ∧
    (update_readme p ReadOutcome.osError).retVal = Except.error PyErr.osError :=
  ⟨rfl, rfl, rfl, rfl⟩

/-- Claim C8: with the user-identifier environment variable absent,
`main` reports a configuration error and returns normally before any
other pipeline stage runs: no network call and no file write, whatever
the other inputs would have been. -/
theorem main_no_user_id_C8 (imageId : Option String) (feed oembed : FetchOutcome)
    (choice : Nat) (readme : ReadOutcome) :
    main_entry none imageId feed oembed choice readme =
      Except.ok { networkCalled := false, written := none, configError := true } := rfl

/-- Claim C9: the document text written by `update_readme` depends only
on the photo record: two runs with the same record but different
readable prior file contents write the identical text, namely the
rendered template — the pre-write read result is discarded and never
merged into the output. -/
theorem update_readme_written_independent_C9 (p : PhotoInfo) (c1 c2 : String) :
    (update_readme p (ReadOutcome.ok c1)).written =
      (update_readme p (ReadOutcome.ok c2)).written ∧
    (update_readme p (ReadOutcome.ok c1)).written = some (render_readme p) :=
  ⟨rfl, rfl⟩

/-- Whether `get_random_photo` returned a record without raising. -/
def isOkSome : Except PyErr (Option RandomPhoto) → Bool
  | .ok (some _) => true
  | _ => false

/-- The `url` field of a returned record, if any. -/
def resultUrl : Except PyErr (Option RandomPhoto) → Option JValue
  | .ok (some r) => some r.url
  | _ => none

/-- The `title` field of a returned record, if any. -/
def resultTitle : Except PyErr (Option RandomPhoto) → Option JValue
  | .ok (some r) => some r.title
  | _ => none

/-- The `link` field of a returned record, if any. -/
def resultLink : Except PyErr (Option RandomPhoto) → Option JValue
  | .ok (some r) => some r.link
  | _ => none

/-- The `published` field of a returned record, if any. -/
def resultPublished : Except PyErr (Option RandomPhoto) → Option JValue
  | .ok (some r) => some r.published
  | _ => none

/-- Field lookup on a JSON value (`none` when the value is not an
object or lacks the field). -/
def jLookupJ : JValue → String → Option JValue
  | .obj fs, k => jLookup fs k
  | _, _ => none

/-- A feed record shaped like the documented feed schema wherever its
optional fields are present: a JSON object whose `media` field (if
present) is an object whose `m` field (if present) is a string, and
whose `description` field (if present) is a string.  Any field may be
missing; `title`, `link` and `published` are unconstrained. -/
def wellFormedPhoto : JValue → Bool
  | .obj fs =>
    (match jLookup fs "media" with
     | none => true
     | some (.obj ms) =>
       (match jLookup ms "m" with
        | none => true
        | some (.str _) => true
        | some _ => false)
     | some _ => false) &&
    (match jLookup fs "description" with
     | none => true
     | some (.str _) => true
     | some _ => false)
  | _ => false

theorem jLookup_nil (k : String) : jLookup [] k = none := rfl

theorem string_isEmpty_nil : "".isEmpty = true := rfl

/-- Claim C10: on a non-empty photo list whose chosen record matches
the feed schema (fields optional), `get_random_photo` raises nothing
and returns a record; a missing `media` object or missing `m` field
defaults the URL to `""`, missing `link` and `published` default to
`""`, and a missing `title` defaults to `"Flickr Photo"`. -/
theorem get_random_photo_total_C10 (photos : List JValue) (choice : Nat)
    (hne : photos ≠ [])
    (hwf : wellFormedPhoto (photos.getD choice JValue.null) = true) :
    isOkSome (get_random_photo photos choice) = true ∧
    (jLookupJ (photos.getD choice JValue.null) "media" = none →
      resultUrl (get_random_photo photos choice) = some (JValue.str "")) ∧
    (∀ ms, jLookupJ (photos.getD choice JValue.null) "media" = some (JValue.obj ms) →
      jLookup ms "m" = none →
      resultUrl (get_random_photo photos choice) = some (JValue.str "")) ∧
    (jLookupJ (photos.getD choice JValue.null) "link" = none →
      resultLink (get_random_photo photos choice) = some (JValue.str "")) ∧
    (jLookupJ (photos.getD choice JValue.null) "published" = none →
      resultPublished (get_random_photo photos choice) = some (JValue.str "")) ∧
    (jLookupJ (photos.getD choice JValue.null) "title" = none →
      resultTitle (get_random_photo photos choice) = some (JValue.str "Flickr Photo")) := by
  have hemp : photos.isEmpty = false := by
    cases photos with
    | nil => exact absurd rfl hne
    | cons a as => rfl
  unfold get_random_photo
  rw [if_neg (by simp [hemp])]
  revert hwf
  generalize hx : photos.getD choice JValue.null = x
  intro hwf
  cases x with
  | null => simp [wellFormedPhoto] at hwf
  | bool b => simp [wellFormedPhoto] at hwf
  | num n => simp [wellFormedPhoto] at hwf
  | str s => simp [wellFormedPhoto] at hwf
  | arr xs => simp [wellFormedPhoto] at hwf
  | obj fs =>
    simp only [wellFormedPhoto, Bool.and_eq_true] at hwf
    obtain ⟨hwm, hwd⟩ := hwf
    cases hmedia : jLookup fs "media" with
    | none =>
      cases hdesc : jLookup fs "description" with
      | none =>
        refine ⟨by simp [pyDictGet, jLookupD, except_bind_ok, hmedia, hdesc, jLookup_nil, string_isEmpty_nil, jTruthy,
            strip_html_tags_j, isOkSome],
          fun _ => by simp [pyDictGet, jLookupD, except_bind_ok, hmedia, hdesc, jLookup_nil, string_isEmpty_nil, jTruthy,
            strip_html_tags_j, resultUrl],
          fun ms hms hmn => by simp [jLookupJ, hmedia] at hms,
          fun h => by
            simp [jLookupJ] at h
            simp [pyDictGet, jLookupD, except_bind_ok, hmedia, hdesc, jLookup_nil, string_isEmpty_nil, jTruthy,
              strip_html_tags_j, resultLink, h],
          fun h => by
            simp [jLookupJ] at h
            simp [pyDictGet, jLookupD, except_bind_ok, hmedia, hdesc, jLookup_nil, string_isEmpty_nil, jTruthy,
              strip_html_tags_j, resultPublished, h],
          fun h => by
            simp [jLookupJ] at h
            simp [pyDictGet, jLookupD, except_bind_ok, hmedia, hdesc, jLookup_nil, string_isEmpty_nil, jTruthy,
              strip_html_tags_j, resultTitle, h]⟩
      | some dv =>
        rw [hdesc] at hwd
        cases dv with
        | str ds =>
          refine ⟨by simp [pyDictGet, jLookupD, except_bind_ok, hmedia, hdesc, jLookup_nil, string_isEmpty_nil, jTruthy,
              strip_html_tags_j, isOkSome],
            fun _ => by simp [pyDictGet, jLookupD, except_bind_ok, hmedia, hdesc, jLookup_nil, string_isEmpty_nil, jTruthy,
              strip_html_tags_j, resultUrl],
            fun ms hms hmn => by simp [jLookupJ, hmedia] at hms,
            fun h => by
              simp [jLookupJ] at h
              simp [pyDictGet, jLookupD, except_bind_ok, hmedia, hdesc, jLookup_nil, string_isEmpty_nil, jTruthy,
                strip_html_tags_j, resultLink, h],
            fun h => by
              simp [jLookupJ] at h
              simp [pyDictGet, jLookupD, except_bind_ok, hmedia, hdesc, jLookup_nil, string_isEmpty_nil, jTruthy,
                strip_html_tags_j, resultPublished, h],
            fun h => by
              simp [jLookupJ] at h
              simp [pyDictGet, jLookupD, except_bind_ok, hmedia, hdesc, jLookup_nil, string_isEmpty_nil, jTruthy,
                strip_html_tags_j, resultTitle, h]⟩
        | null => simp at hwd
        | bool b => simp at hwd
        | num n => simp at hwd
        | arr xs => simp at hwd
        | obj os => simp at hwd
    | some mv =>
      rw [hmedia] at hwm
      cases mv with
      | obj ms =>
        have hwm2 : (match jLookup ms "m" with
            | none => true
            | some (.str _) => true
            | some _ => false) = true := hwm
        cases hm : jLookup ms "m" with
        | none =>
          cases hdesc : jLookup fs "description" with
          | none =>
            refine ⟨by simp [pyDictGet, jLookupD, except_bind_ok, hmedia, hm, hdesc, jLookup_nil, string_isEmpty_nil, jTruthy,
                strip_html_tags_j, isOkSome],
              fun hmn => by simp [jLookupJ, hmedia] at hmn,
              fun ms2 hms hmn => by simp [pyDictGet, jLookupD, except_bind_ok, hmedia, hm, hdesc,
                jLookup_nil, string_isEmpty_nil, jTruthy, strip_html_tags_j, resultUrl],
              fun h => by
                simp [jLookupJ] at h
                simp [pyDictGet, jLookupD, except_bind_ok, hmedia, hm, hdesc, jLookup_nil, string_isEmpty_nil, jTruthy,
                  strip_html_tags_j, resultLink, h],
              fun h => by
                simp [jLookupJ] at h
                simp [pyDictGet, jLookupD, except_bind_ok, hmedia, hm, hdesc, jLookup_nil, string_isEmpty_nil, jTruthy,
                  strip_html_tags_j, resultPublished, h],
              fun h => by
                simp [jLookupJ] at h
                simp [pyDictGet, jLookupD, except_bind_ok, hmedia, hm, hdesc, jLookup_nil, string_isEmpty_nil, jTruthy,
                  strip_html_tags_j, resultTitle, h]⟩
          | some dv =>
            rw [hdesc] at hwd
            cases dv with
            | str ds =>
              refine ⟨by simp [pyDictGet, jLookupD, except_bind_ok, hmedia, hm, hdesc, jLookup_nil, string_isEmpty_nil, jTruthy,
                  strip_html_tags_j, isOkSome],
                fun hmn => by simp [jLookupJ, hmedia] at hmn,
                fun ms2 hms hmn => by simp [pyDictGet, jLookupD, except_bind_ok, hmedia, hm, hdesc,
                  jLookup_nil, string_isEmpty_nil, jTruthy, strip_html_tags_j, resultUrl],
                fun h => by
                  simp [jLookupJ] at h
                  simp [pyDictGet, jLookupD, except_bind_ok, hmedia, hm, hdesc, jLookup_nil, string_isEmpty_nil, jTruthy,
                    strip_html_tags_j, resultLink, h],
                fun h => by
                  simp [jLookupJ] at h
                  simp [pyDictGet, jLookupD, except_bind_ok, hmedia, hm, hdesc, jLookup_nil, string_isEmpty_nil, jTruthy,
                    strip_html_tags_j, resultPublished, h],
                fun h => by
                  simp [jLookupJ] at h
                  simp [pyDictGet, jLookupD, except_bind_ok, hmedia, hm, hdesc, jLookup_nil, string_isEmpty_nil, jTruthy,
                    strip_html_tags_j, resultTitle, h]⟩
            | null => simp at hwd
            | bool b => simp at hwd
            | num n => simp at hwd
            | arr xs => simp at hwd
            | obj os => simp at hwd
        | some mval =>
          rw [hm] at hwm2
          cases mval with
          | str s =>
            by_cases hs : s.isEmpty = true
            all_goals cases hdesc : jLookup fs "description" with
            | none =>
              refine ⟨by simp [pyDictGet, jLookupD, except_bind_ok, hmedia, hm, hdesc, jLookup_nil, string_isEmpty_nil, jTruthy,
                  strip_html_tags_j, isOkSome, hs],
                fun hmn => by simp [jLookupJ, hmedia] at hmn,
                fun ms2 hms hmn => by
                  simp [jLookupJ, hmedia] at hms
                  subst hms
                  simp [hm] at hmn,
                fun h => by
                  simp [jLookupJ] at h
                  simp [pyDictGet, jLookupD, except_bind_ok, hmedia, hm, hdesc, jLookup_nil, string_isEmpty_nil, jTruthy,
                    strip_html_tags_j, resultLink, h, hs],
                fun h => by
                  simp [jLookupJ] at h
                  simp [pyDictGet, jLookupD, except_bind_ok, hmedia, hm, hdesc, jLookup_nil, string_isEmpty_nil, jTruthy,
                    strip_html_tags_j, resultPublished, h, hs],
                fun h => by
                  simp [jLookupJ] at h
                  simp [pyDictGet, jLookupD, except_bind_ok, hmedia, hm, hdesc, jLookup_nil, string_isEmpty_nil, jTruthy,
                    strip_html_tags_j, resultTitle, h, hs]⟩
            | some dv =>
              rw [hdesc] at hwd
              cases dv with
              | str ds =>
                refine ⟨by simp [pyDictGet, jLookupD, except_bind_ok, hmedia, hm, hdesc, jLookup_nil, string_isEmpty_nil, jTruthy,
                    strip_html_tags_j, isOkSome, hs],
                  fun hmn => by simp [jLookupJ, hmedia] at hmn,
                  fun ms2 hms hmn => by
                    simp [jLookupJ, hmedia] at hms
                    subst hms
                    simp [hm] at hmn,
                  fun h => by
                    simp [jLookupJ] at h
                    simp [pyDictGet, jLookupD, except_bind_ok, hmedia, hm, hdesc, jLookup_nil, string_isEmpty_nil, jTruthy,
                      strip_html_tags_j, resultLink, h, hs],
                  fun h => by
                    simp [jLookupJ] at h
                    simp [pyDictGet, jLookupD, except_bind_ok, hmedia, hm, hdesc, jLookup_nil, string_isEmpty_nil, jTruthy,
                      strip_html_tags_j, resultPublished, h, hs],
                  fun h => by
                    simp [jLookupJ] at h
                    simp [pyDictGet, jLookupD, except_bind_ok, hmedia, hm, hdesc, jLookup_nil, string_isEmpty_nil, jTruthy,
                      strip_html_tags_j, resultTitle, h, hs]⟩
              | null => simp at hwd
              | bool b => simp at hwd
              | num n => simp at hwd
              | arr xs => simp at hwd
              | obj os => simp at hwd
          | null => simp at hwm2
          | bool b => simp at hwm2
          | num n => simp at hwm2
          | arr xs => simp at hwm2
          | obj os => simp at hwm2
      | null => simp at hwm
      | bool b => simp at hwm
      | num n => simp at hwm
      | str s => simp at hwm
      | arr xs => simp at hwm

theorem get_random_photo_total_C10_witness :
    isOkSome (get_random_photo [JValue.obj []] 0) = true ∧
    (jLookupJ (([JValue.obj []] : List JValue).getD 0 JValue.null) "media" = none →
      resultUrl (get_random_photo [JValue.obj []] 0) = some (JValue.str "")) ∧
    (∀ ms, jLookupJ (([JValue.obj []] : List JValue).getD 0 JValue.null) "media" =
        some (JValue.obj ms) → jLookup ms "m" = none →
      resultUrl (get_random_photo [JValue.obj []] 0) = some (JValue.str "")) ∧
    (jLookupJ (([JValue.obj []] : List JValue).getD 0 JValue.null) "link" = none →
      resultLink (get_random_photo [JValue.obj []] 0) = some (JValue.str "")) ∧
    (jLookupJ (([JValue.obj []] : List JValue).getD 0 JValue.null) "published" = none →
      resultPublished (get_random_photo [JValue.obj []] 0) = some (JValue.str "")) ∧
    (jLookupJ (([JValue.obj []] : List JValue).getD 0 JValue.null) "title" = none →
      resultTitle (get_random_photo [JValue.obj []] 0) = some (JValue.str "Flickr Photo")) :=
  get_random_photo_total_C10 [JValue.obj []] 0 (by simp) rfl
